import Mathlib

/-!
Shallow embedding of the Agentic repository's database-backed tool layer
(`src/tools.py`, `src/conversation_service.py`, backed by `src/database.py`)
and proofs of the specification's claims about it.

Modelling conventions:
* The relational store (tables `accounts`, `facilities`, `notes`, `convos`)
  is a `Store` of row lists in insertion order; SQL `SELECT ... WHERE`
  becomes `List.filter`, `ORDER BY created_at DESC` becomes an insertion
  sort by the timestamp, `LIMIT` becomes `List.take`.
* SQL `NULL`-able columns are `Option` fields; the SQL comparison
  `col = value` is false on `NULL`, which `Option` equality against
  `some value` reproduces.
* Python string truthiness (`if not account_id`) is `struthy`;
  `not s.strip()` is `strippedEmpty`.  Python renders `None` inside an
  f-string as the text "None" (`pyShow`).
* Timestamps are `Nat` (the database clock is `Store.now`); `str()` of a
  timestamp is its decimal rendering, an injective function.  Numeric
  money columns are exact rationals; Python's `float()` conversion of a
  numeric column is modelled as the identity on the exact value.
* The `SERIAL` note id counter is `Store.next_note_id`; `uuid4()` for
  conversations is modelled by passing the generated identifier as an
  explicit argument.
-/

namespace Agentic

/-- Python truthiness of an optional string: `None` and `""` are falsy. -/
def struthy : Option String → Bool
  | none => false
  | some s => s != ""

/-- Leading-whitespace removal on a character list. -/
def dropLeadingSpace : List Char → List Char
  | [] => []
  | c :: cs => if c.isWhitespace then dropLeadingSpace cs else c :: cs

/-- Python `s.strip()`: removes leading and trailing whitespace.  (Defined
by structural recursion on the character list so that concrete instances
evaluate inside the kernel.) -/
def pyStrip (s : String) : String :=
  ⟨(dropLeadingSpace (dropLeadingSpace s.data.reverse).reverse)⟩

/-- Python `not s.strip()` on an optional string: true when the value is
missing or whitespace-only. -/
def strippedEmpty : Option String → Bool
  | none => true
  | some s => pyStrip s == ""

/-- Python f-string rendering of an optional string (`None` prints as "None"). -/
def pyShow : Option String → String
  | none => "None"
  | some s => s

/-- Database timestamps, modelled as natural numbers (the wall clock). -/
abbrev Timestamp := Nat

/-- Python `str()` of a timestamp value: an injective textual rendering. -/
def tsToString (t : Timestamp) : String := toString t

/-- A row of the `accounts` table (columns taken from the projection in
`fetch_account_details`, `src/tools.py`). -/
structure AccountRow where
  account_id : String
  account_name : Option String := none
  status : Option String := none
  is_tna : Option Bool := none
  created_at : Option Timestamp := none
  pricing_model : Option String := none
  address_line1 : Option String := none
  address_line2 : Option String := none
  address_city : Option String := none
  address_state : Option String := none
  address_postal_code : Option String := none
  address_country : Option String := none
  total_amount_due : Option Rat := none
  total_amount_due_this_week : Option Rat := none
  invoice_id : Option String := none
  invoice_amount : Option Rat := none
  invoice_due_date : Option String := none
  current_balance : Option Rat := none
  pending_balance : Option Rat := none
  points_earned_this_quarter : Option Int := none
  current_tier : Option String := none
  next_tier : Option String := none
  points_to_next_tier : Option Int := none
  quarter_end_date : Option Timestamp := none
  free_vials_available : Option Int := none
  rewards_required_for_next_free_vial : Option Int := none
  rewards_redeemed_towards_next_free_vial : Option Int := none
  rewards_status : Option String := none
  rewards_updated_at : Option Timestamp := none
  evolux_level : Option String := none
  deriving Repr, DecidableEq

/-- A row of the `facilities` table (columns from `fetch_facility_details`
and the facilities sub-query of `fetch_account_details`). -/
structure FacilityRow where
  facility_id : String
  facility_name : Option String := none
  status : Option String := none
  account_id : String
  has_signed_medical_liability_agreement : Option Bool := none
  medical_license_id : Option String := none
  medical_license_state : Option String := none
  medical_license_number : Option String := none
  medical_license_involvement : Option String := none
  medical_license_expiration_date : Option Timestamp := none
  medical_license_is_expired : Option Bool := none
  medical_license_status : Option String := none
  medical_license_owner_first_name : Option String := none
  medical_license_owner_last_name : Option String := none
  agreement_status : Option String := none
  agreement_signed_at : Option Timestamp := none
  agreement_type : Option String := none
  shipping_address_line1 : Option String := none
  shipping_address_line2 : Option String := none
  shipping_address_city : Option String := none
  shipping_address_state : Option String := none
  shipping_address_zip : Option String := none
  shipping_address_commercial : Option Bool := none
  sponsored : Option Bool := none
  account_has_signed_financial_agreement : Option Bool := none
  account_has_accepted_jet_terms : Option Bool := none
  deriving Repr, DecidableEq

/-- A row of the `notes` table as written by `save_note` (`src/tools.py`):
`note_id SERIAL`, nullable `account_id`/`facility_id`, `user_id`,
`note_content`, `created_at DEFAULT CURRENT_TIMESTAMP`. -/
structure NoteRow where
  note_id : Nat
  account_id : Option String := none
  facility_id : Option String := none
  user_id : String
  note_content : String
  created_at : Timestamp
  deriving Repr, DecidableEq

/-- A role-tagged conversation message (`{"role": ..., "content": ...}`). -/
structure Message where
  role : String
  content : String
  deriving Repr, DecidableEq

/-- A row of the `convos` table (`src/conversation_service.py`);
`conversation_history` is the JSON-encoded message array, nullable. -/
structure ConvoRow where
  conversation_id : String
  conversation_history : Option (List Message) := none
  account_id : Option String := none
  facility_id : Option String := none
  created_at : Timestamp := 0
  updated_at : Timestamp := 0
  deriving Repr, DecidableEq

/-- The relational store: the four tables in insertion order, the `SERIAL`
counter for `notes.note_id`, and the database clock `now` used for
`CURRENT_TIMESTAMP`. -/
structure Store where
  accounts : List AccountRow := []
  facilities : List FacilityRow := []
  notes : List NoteRow := []
  convos : List ConvoRow := []
  next_note_id : Nat := 1
  now : Timestamp := 0
  deriving Repr, DecidableEq

/-- The `configurable` map of the `RunnableConfig` handed to every tool:
optional `account_id`, `facility_id`, `user_id`, `note_content`, and the
notes `limit` (Python `config.get("limit", 10)`). -/
structure ToolConfig where
  account_id : Option String := none
  facility_id : Option String := none
  user_id : Option String := none
  note_content : Option String := none
  limit : Nat := 10
  deriving Repr, DecidableEq

/-- `FacilityInfo` of `src/models.py`: the per-facility entry of an
account overview. -/
structure FacilityInfo where
  id : Option String := none
  name : Option String := none
  status : Option String := none
  deriving Repr, DecidableEq

/-- `NoteInfo` of `src/models.py`. -/
structure NoteInfo where
  note_id : Option Nat := none
  note_content : Option String := none
  user_id : Option String := none
  created_at : Option String := none
  deriving Repr, DecidableEq

/-- `AccountResponse` of `src/models.py`: every field other than `success`
is optional and defaults to `None`. -/
structure AccountResponse where
  success : Bool
  message : Option String := none
  account_id : Option String := none
  name : Option String := none
  status : Option String := none
  is_tna : Option Bool := none
  created_at : Option String := none
  pricing_model : Option String := none
  address_line1 : Option String := none
  address_line2 : Option String := none
  address_city : Option String := none
  address_state : Option String := none
  address_postal_code : Option String := none
  address_country : Option String := none
  facilities : Option (List FacilityInfo) := none
  total_amount_due : Option Rat := none
  total_amount_due_this_week : Option Rat := none
  invoice_id : Option String := none
  invoice_amount : Option Rat := none
  invoice_due_date : Option String := none
  current_balance : Option Rat := none
  pending_balance : Option Rat := none
  points_earned_this_quarter : Option Int := none
  current_tier : Option String := none
  next_tier : Option String := none
  points_to_next_tier : Option Int := none
  quarter_end_date : Option String := none
  free_vials_available : Option Int := none
  rewards_required_for_next_free_vial : Option Int := none
  rewards_redeemed_towards_next_free_vial : Option Int := none
  rewards_status : Option String := none
  rewards_updated_at : Option String := none
  evolux_level : Option String := none
  deriving Repr, DecidableEq

/-- `FacilityResponse` of `src/models.py`. -/
structure FacilityResponse where
  success : Bool
  message : Option String := none
  id : Option String := none
  name : Option String := none
  status : Option String := none
  has_signed_medical_liability_agreement : Option Bool := none
  medical_license_id : Option String := none
  medical_license_state : Option String := none
  medical_license_number : Option String := none
  medical_license_involvement : Option String := none
  medical_license_expiration_date : Option String := none
  medical_license_is_expired : Option Bool := none
  medical_license_status : Option String := none
  medical_license_owner_first_name : Option String := none
  medical_license_owner_last_name : Option String := none
  account_id : Option String := none
  account_name : Option String := none
  account_status : Option String := none
  account_has_signed_financial_agreement : Option Bool := none
  account_has_accepted_jet_terms : Option Bool := none
  agreement_status : Option String := none
  agreement_signed_at : Option String := none
  agreement_type : Option String := none
  shipping_address_line1 : Option String := none
  shipping_address_line2 : Option String := none
  shipping_address_city : Option String := none
  shipping_address_state : Option String := none
  shipping_address_zip : Option String := none
  shipping_address_commercial : Option Bool := none
  sponsored : Option Bool := none
  deriving Repr, DecidableEq

/-- `NoteResponse` of `src/models.py`. -/
structure NoteResponse where
  success : Bool
  message : String
  note_id : Option Nat := none
  deriving Repr, DecidableEq

/-- `NotesListResponse` of `src/models.py`. -/
structure NotesListResponse where
  success : Bool
  message : Option String := none
  notes : List NoteInfo := []
  total_count : Nat := 0
  deriving Repr, DecidableEq

/-! ### Queries shared by several tools -/

/-- `SELECT * FROM accounts WHERE account_id = %(account_id)s`. -/
def accountsMatching (s : Store) (aid : String) : List AccountRow :=
  s.accounts.filter (fun a => a.account_id == aid)

/-- `SELECT ... FROM facilities WHERE facility_id = %(facility_id)s`. -/
def facilitiesMatching (s : Store) (fid : String) : List FacilityRow :=
  s.facilities.filter (fun f => f.facility_id == fid)

/-- `SELECT ... FROM facilities WHERE account_id = %(account_id)s`. -/
def facilitiesOfAccount (s : Store) (aid : String) : List FacilityRow :=
  s.facilities.filter (fun f => f.account_id == aid)

/-- `facility_result[0]` of the facility lookup used by the
cross-reference branches of `fetch_account_details`. -/
def findFacility (s : Store) (fid : String) : Option FacilityRow :=
  (facilitiesMatching s fid).head?

/-! ### fetch_account_details (src/tools.py lines 11-206) -/

/-- An `AccountResponse` carrying only `success=False` and a message. -/
def accountFailure (msg : String) : AccountResponse :=
  { success := false, message := some msg }

/-- The structured entry built for each facility of the account
(`FacilityInfo(id=..., name=..., status=...)`). -/
def facilityInfoOf (f : FacilityRow) : FacilityInfo :=
  { id := some f.facility_id, name := f.facility_name, status := f.status }

/-- The full single-account projection of `fetch_account_details`
(lines 110-187 of `src/tools.py`). -/
def accountProjection (s : Store) (a : AccountRow) : AccountResponse :=
  { success := true
    message := some "Account details retrieved successfully"
    account_id := some a.account_id
    name := a.account_name
    status := a.status
    is_tna := a.is_tna
    created_at := a.created_at.map tsToString
    pricing_model := a.pricing_model
    address_line1 := a.address_line1
    address_line2 := a.address_line2
    address_city := a.address_city
    address_state := a.address_state
    address_postal_code := a.address_postal_code
    address_country := a.address_country
    facilities := some ((facilitiesOfAccount s a.account_id).map facilityInfoOf)
    total_amount_due := a.total_amount_due
    total_amount_due_this_week := a.total_amount_due_this_week
    invoice_id := a.invoice_id
    invoice_amount := a.invoice_amount
    invoice_due_date := a.invoice_due_date
    current_balance := a.current_balance
    pending_balance := a.pending_balance
    points_earned_this_quarter := a.points_earned_this_quarter
    current_tier := a.current_tier
    next_tier := a.next_tier
    points_to_next_tier := a.points_to_next_tier
    quarter_end_date := a.quarter_end_date.map tsToString
    free_vials_available := a.free_vials_available
    rewards_required_for_next_free_vial := a.rewards_required_for_next_free_vial
    rewards_redeemed_towards_next_free_vial := a.rewards_redeemed_towards_next_free_vial
    rewards_status := a.rewards_status
    rewards_updated_at := a.rewards_updated_at.map tsToString
    evolux_level := a.evolux_level }

/-- One line of the multiple-accounts listing
(`f"- {account_name} (ID: {account_id})"`). -/
def accountListEntry (a : AccountRow) : String :=
  "- " ++ pyShow a.account_name ++ " (ID: " ++ a.account_id ++ ")"

/-- Lines 87-198 of `fetch_account_details`: the blank check on the
(possibly cross-reference-resolved) `account_id`, the account query, and
the zero/one/many result cases. -/
def accountLookup (s : Store) (account_id : Option String) : AccountResponse :=
  if !(struthy account_id) || strippedEmpty account_id then
    accountFailure "Please provide account_id to search for account details."
  else
    let aid := account_id.getD ""
    match accountsMatching s aid with
    | [] => accountFailure ("No account found with account_id \x27" ++ aid ++ "\x27.")
    | [a] => accountProjection s a
    | results =>
        { success := true
          message := some ("Found " ++ toString results.length ++
            " accounts matching your criteria:\n" ++
            String.intercalate "\n" (results.map accountListEntry)) }

/-- `fetch_account_details` (`src/tools.py`): cross-reference resolution
of `account_id` from `facility_id`, the mismatch check when both are
supplied, then the account lookup. -/
def fetch_account_details (s : Store) (cfg : ToolConfig) : AccountResponse :=
  let account_id := cfg.account_id
  let facility_id := cfg.facility_id
  if !(struthy account_id) && struthy facility_id then
    let fid := facility_id.getD ""
    match findFacility s fid with
    | some fr => accountLookup s (some fr.account_id)
    | none => accountFailure ("Facility \x27" ++ fid ++
        "\x27 not found. Cannot determine account information.")
  else if struthy account_id && struthy facility_id then
    let fid := facility_id.getD ""
    let aid := account_id.getD ""
    match findFacility s fid with
    | some fr =>
        if fr.account_id != aid then
          accountFailure ("Account ID \x27" ++ aid ++ "\x27 does not match facility \x27" ++
            fid ++ "\x27 which belongs to account \x27" ++ fr.account_id ++ "\x27.")
        else accountLookup s account_id
    | none => accountFailure ("Facility \x27" ++ fid ++ "\x27 not found.")
  else accountLookup s account_id

/-! ### fetch_facility_details (src/tools.py lines 208-354) -/

/-- A row of the `facilities LEFT JOIN accounts` query: the facility's
columns plus the owning account's name and status (null when no account
row matches). -/
structure JoinedFacilityRow where
  f : FacilityRow
  account_name : Option String := none
  account_status : Option String := none
  deriving Repr, DecidableEq

/-- The conjunctive `WHERE` filter of `fetch_facility_details`, built from
whichever of `facility_id`/`account_id` are (Python-)truthy. -/
def facilityFilterMatches (cfg : ToolConfig) (f : FacilityRow) : Bool :=
  (if struthy cfg.facility_id then f.facility_id == cfg.facility_id.getD "" else true) &&
  (if struthy cfg.account_id then f.account_id == cfg.account_id.getD "" else true)

/-- `LEFT JOIN accounts a ON f.account_id = a.account_id`: one output row
per matching account, or a single row with null account columns. -/
def leftJoinAccount (s : Store) (f : FacilityRow) : List JoinedFacilityRow :=
  match accountsMatching s f.account_id with
  | [] => [{ f := f }]
  | accts => accts.map (fun a =>
      { f := f, account_name := a.account_name, account_status := a.status })

/-- Concatenation of the joined rows of each facility passing the filter. -/
def joinAll (s : Store) : List FacilityRow → List JoinedFacilityRow
  | [] => []
  | f :: fs => leftJoinAccount s f ++ joinAll s fs

/-- The result set of the `facilities LEFT JOIN accounts` query of
`fetch_facility_details`. -/
def facilityQueryResults (s : Store) (cfg : ToolConfig) : List JoinedFacilityRow :=
  joinAll s (s.facilities.filter (facilityFilterMatches cfg))

/-- A `FacilityResponse` carrying only `success=False` and a message. -/
def facilityFailure (msg : String) : FacilityResponse :=
  { success := false, message := some msg }

/-- One line of the multiple-facilities listing
(`f"- {facility_name} (ID: {facility_id}) - Account: {account_name}"`). -/
def facilityListEntry (j : JoinedFacilityRow) : String :=
  "- " ++ pyShow j.f.facility_name ++ " (ID: " ++ j.f.facility_id ++
  ") - Account: " ++ pyShow j.account_name

/-- The message of the multiple-facilities branch of
`fetch_facility_details`. -/
def facilityMultiMsg (results : List JoinedFacilityRow) : String :=
  "Found " ++ toString results.length ++ " facilities matching your criteria:\n" ++
  String.intercalate "\n" (results.map facilityListEntry)

/-- The full single-facility projection of `fetch_facility_details`
(lines 291-334 of `src/tools.py`). -/
def facilityProjection (j : JoinedFacilityRow) : FacilityResponse :=
  { success := true
    message := some "Facility details retrieved successfully"
    id := some j.f.facility_id
    name := j.f.facility_name
    status := j.f.status
    has_signed_medical_liability_agreement := j.f.has_signed_medical_liability_agreement
    medical_license_id := j.f.medical_license_id
    medical_license_state := j.f.medical_license_state
    medical_license_number := j.f.medical_license_number
    medical_license_involvement := j.f.medical_license_involvement
    medical_license_expiration_date := j.f.medical_license_expiration_date.map tsToString
    medical_license_is_expired := j.f.medical_license_is_expired
    medical_license_status := j.f.medical_license_status
    medical_license_owner_first_name := j.f.medical_license_owner_first_name
    medical_license_owner_last_name := j.f.medical_license_owner_last_name
    account_id := some j.f.account_id
    account_name := j.account_name
    account_status := j.account_status
    account_has_signed_financial_agreement := j.f.account_has_signed_financial_agreement
    account_has_accepted_jet_terms := j.f.account_has_accepted_jet_terms
    agreement_status := j.f.agreement_status
    agreement_signed_at := j.f.agreement_signed_at.map tsToString
    agreement_type := j.f.agreement_type
    shipping_address_line1 := j.f.shipping_address_line1
    shipping_address_line2 := j.f.shipping_address_line2
    shipping_address_city := j.f.shipping_address_city
    shipping_address_state := j.f.shipping_address_state
    shipping_address_zip := j.f.shipping_address_zip
    shipping_address_commercial := j.f.shipping_address_commercial
    sponsored := j.f.sponsored }

/-- `fetch_facility_details` (`src/tools.py`). -/
def fetch_facility_details (s : Store) (cfg : ToolConfig) : FacilityResponse :=
  if !(struthy cfg.facility_id) && !(struthy cfg.account_id) then
    facilityFailure "Please provide facility_id or account_id to search for facility details."
  else
    match facilityQueryResults s cfg with
    | [] => facilityFailure "No facilities found with the provided criteria."
    | [j] => facilityProjection j
    | results => { success := true, message := some (facilityMultiMsg results) }

/-! ### save_note (src/tools.py lines 357-493) -/

/-- The empty-string-to-NULL conversion applied to `account_id` and
`facility_id` before the notes insert and query
(`x if x and x.strip() else None`). -/
def idOrNull (o : Option String) : Option String :=
  if struthy o && !(strippedEmpty o) then o else none

/-- The context fragment of the save confirmation message. -/
def saveContextMsg (aid fid : Option String) : String :=
  if struthy aid && struthy fid then
    "Account: " ++ pyShow aid ++ " and Facility: " ++ pyShow fid
  else if struthy aid then "Account: " ++ pyShow aid
  else "Facility: " ++ pyShow fid

/-- The note row inserted by a successful `save_note`: generated serial
id, NULL-converted scope ids, stripped user id and content, and the
database clock as `created_at`. -/
def savedNoteRow (s : Store) (cfg : ToolConfig) : NoteRow :=
  { note_id := s.next_note_id
    account_id := idOrNull cfg.account_id
    facility_id := idOrNull cfg.facility_id
    user_id := pyStrip (cfg.user_id.getD "")
    note_content := pyStrip (cfg.note_content.getD "")
    created_at := s.now }

/-- `save_note` (`src/tools.py`): validation chain, then the insert.
Returns the tool response together with the store after the call. -/
def save_note (s : Store) (cfg : ToolConfig) : NoteResponse × Store :=
  if !(struthy cfg.note_content) || strippedEmpty cfg.note_content then
    ({ success := false
       message := "Note content cannot be empty. Please provide the note content to save." }, s)
  else if !(struthy cfg.user_id) || strippedEmpty cfg.user_id then
    ({ success := false, message := "User ID is required to save a note." }, s)
  else if !(struthy cfg.account_id) && !(struthy cfg.facility_id) then
    ({ success := false
       message := "Either account_id or facility_id is required to save a note." }, s)
  else if struthy cfg.account_id && (accountsMatching s (cfg.account_id.getD "")).isEmpty then
    ({ success := false
       message := "Account with ID \x27" ++ cfg.account_id.getD "" ++
         "\x27 not found. Cannot save note." }, s)
  else if struthy cfg.facility_id && (facilitiesMatching s (cfg.facility_id.getD "")).isEmpty then
    ({ success := false
       message := "Facility with ID \x27" ++ cfg.facility_id.getD "" ++
         "\x27 not found. Cannot save note." }, s)
  else
    let row := savedNoteRow s cfg
    ({ success := true
       message := "Note saved successfully for " ++
         saveContextMsg row.account_id row.facility_id ++ "! Note ID: " ++
         toString row.note_id ++ ", Created: " ++ tsToString row.created_at
       note_id := some row.note_id },
     { s with notes := s.notes ++ [row], next_note_id := s.next_note_id + 1 })

/-! ### get_notes (src/tools.py lines 495-651) -/

/-- The `WHERE` clause of the account-only notes query:
`account_id = a AND facility_id IS NULL AND user_id = u`. -/
def accountOnlyNote (a u : String) (n : NoteRow) : Bool :=
  n.account_id == some a && n.facility_id == none && n.user_id == u

/-- The `WHERE` clause of the facility-only notes query:
`facility_id = f AND account_id IS NULL AND user_id = u`. -/
def facilityOnlyNote (f u : String) (n : NoteRow) : Bool :=
  n.facility_id == some f && n.account_id == none && n.user_id == u

/-- The `WHERE` clause of the both-ids notes query: account-only,
facility-only, or both-ids notes of the user. -/
def bothScopeNote (a f u : String) (n : NoteRow) : Bool :=
  ((n.account_id == some a && n.facility_id == none) ||
   (n.facility_id == some f && n.account_id == none) ||
   (n.account_id == some a && n.facility_id == some f)) &&
  n.user_id == u

/-- `ORDER BY created_at DESC`: newest first. -/
def noteDescRel (a b : NoteRow) : Prop := b.created_at ≤ a.created_at

instance : DecidableRel noteDescRel := fun a b => Nat.decLe b.created_at a.created_at

instance : IsTotal NoteRow noteDescRel :=
  ⟨fun a b => Nat.le_total b.created_at a.created_at⟩

instance : IsTrans NoteRow noteDescRel :=
  ⟨fun _ _ _ h1 h2 => Nat.le_trans h2 h1⟩

/-- Sorting the selected note rows newest-first. -/
def sortNotesDesc (l : List NoteRow) : List NoteRow :=
  List.insertionSort noteDescRel l

/-- The notes query of `get_notes` after id conversion: branch on which
scope ids remain, filter, order newest-first, apply `LIMIT`.  When both
converted ids are NULL (possible only for whitespace ids that exist in
the store) the SQL comparison against NULL selects nothing. -/
def getNotesQuery (s : Store) (aid fid : Option String) (u : String) (lim : Nat) :
    List NoteRow :=
  let pred : NoteRow → Bool :=
    match aid, fid with
    | some a, some f => bothScopeNote a f u
    | some a, none => accountOnlyNote a u
    | none, some f => facilityOnlyNote f u
    | none, none => fun _ => false
  (sortNotesDesc (s.notes.filter pred)).take lim

/-- The `NoteInfo` projection of a selected note row. -/
def noteInfoOf (n : NoteRow) : NoteInfo :=
  { note_id := some n.note_id
    note_content := some n.note_content
    user_id := some n.user_id
    created_at := some (tsToString n.created_at) }

/-- The quoted context fragment of the empty-notes message. -/
def notesContextQuoted (aid fid : Option String) : String :=
  if struthy aid && struthy fid then
    "account \x27" ++ pyShow aid ++ "\x27 and facility \x27" ++ pyShow fid ++ "\x27"
  else if struthy aid then "account \x27" ++ pyShow aid ++ "\x27"
  else "facility \x27" ++ pyShow fid ++ "\x27"

/-- The unquoted context fragment of the retrieved-notes message. -/
def notesContextPlain (aid fid : Option String) : String :=
  if struthy aid && struthy fid then
    "account " ++ pyShow aid ++ " and facility " ++ pyShow fid
  else if struthy aid then "account " ++ pyShow aid
  else "facility " ++ pyShow fid

/-- `get_notes` (`src/tools.py`): validation chain, id conversion, the
scoped query, and the response. -/
def get_notes (s : Store) (cfg : ToolConfig) : NotesListResponse :=
  if !(struthy cfg.user_id) || strippedEmpty cfg.user_id then
    { success := false, message := some "User ID is required to retrieve notes." }
  else if !(struthy cfg.account_id) && !(struthy cfg.facility_id) then
    { success := false
      message := some "Either account_id or facility_id is required to retrieve notes." }
  else if struthy cfg.account_id && (accountsMatching s (cfg.account_id.getD "")).isEmpty then
    { success := false
      message := some ("Account with ID \x27" ++ cfg.account_id.getD "" ++ "\x27 not found.") }
  else if struthy cfg.facility_id &&
      (facilitiesMatching s (cfg.facility_id.getD "")).isEmpty then
    { success := false
      message := some ("Facility with ID \x27" ++ cfg.facility_id.getD "" ++ "\x27 not found.") }
  else
    let aid := idOrNull cfg.account_id
    let fid := idOrNull cfg.facility_id
    let rows := getNotesQuery s aid fid (pyStrip (cfg.user_id.getD "")) cfg.limit
    if rows.isEmpty then
      { success := true
        message := some ("No notes found for " ++ notesContextQuoted aid fid ++ ".")
        notes := []
        total_count := 0 }
    else
      { success := true
        message := some ("Retrieved " ++ toString rows.length ++ " notes for " ++
          notesContextPlain aid fid)
        notes := rows.map noteInfoOf
        total_count := rows.length }

/-! ### ConversationService (src/conversation_service.py) -/

/-- The record returned by `get_conversation`: a `None` stored history is
normalized to the empty list. -/
structure ConversationRecord where
  conversation_id : String
  conversation_history : List Message
  account_id : Option String := none
  facility_id : Option String := none
  created_at : Timestamp
  updated_at : Timestamp
  deriving Repr, DecidableEq

/-- `create_conversation`: inserts a fresh row and returns its id.  The
`uuid4()` generator is modelled by taking the generated identifier as the
argument `newId`.  JSON encoding and decoding of the history round-trip,
so the history is stored as is. -/
def create_conversation (s : Store) (newId : String) (history : List Message)
    (aid fid : Option String) : String × Store :=
  (newId,
   { s with convos := s.convos ++
      [{ conversation_id := newId
         conversation_history := some history
         account_id := aid
         facility_id := fid
         created_at := s.now
         updated_at := s.now }] })

/-- `get_conversation`: first row matching the id, with null history
normalized to `[]`; `None` when no row matches. -/
def get_conversation (s : Store) (cid : String) : Option ConversationRecord :=
  match (s.convos.filter (fun c => c.conversation_id == cid)).head? with
  | none => none
  | some c =>
      some { conversation_id := c.conversation_id
             conversation_history := c.conversation_history.getD []
             account_id := c.account_id
             facility_id := c.facility_id
             created_at := c.created_at
             updated_at := c.updated_at }

/-- `update_conversation`: overwrites the history of every row matching
the id, bumps `updated_at`, and reports whether any row matched
(`cursor.rowcount > 0`). -/
def update_conversation (s : Store) (cid : String) (history : List Message) :
    Bool × Store :=
  (decide (0 < (s.convos.filter (fun c => c.conversation_id == cid)).length),
   { s with convos := s.convos.map (fun c =>
      if c.conversation_id == cid then
        { c with conversation_history := some history, updated_at := s.now }
      else c) })

/-- `conversation_exists`. -/
def conversation_exists (s : Store) (cid : String) : Bool :=
  (s.convos.filter (fun c => c.conversation_id == cid)).head?.isSome

/-! ### Helper lemmas -/

theorem struthy_some_of_ne {a : String} (h : a ≠ "") : struthy (some a) = true := by
  simp [struthy, h]

theorem strippedEmpty_some {a : String} : strippedEmpty (some a) = (pyStrip a == "") := rfl

theorem ne_empty_of_trim {a : String} (h : pyStrip a ≠ "") : a ≠ "" := by
  intro he
  apply h
  rw [he]
  decide

/-! ### Concrete stores used by the witnesses -/

/-- A small store: one account owning one facility. -/
def wStore : Store :=
  { accounts := [{ account_id := "A-1", account_name := some "Acme" }]
    facilities := [{ facility_id := "F-1", account_id := "A-1", facility_name := some "Clinic" }]
    notes := []
    next_note_id := 1
    now := 10 }

/-- The facility row of `wStore`. -/
def wFacility : FacilityRow :=
  { facility_id := "F-1", account_id := "A-1", facility_name := some "Clinic" }

/-- The account row of `wStore`. -/
def wAccount : AccountRow := { account_id := "A-1", account_name := some "Acme" }

/-! ### Claims -/

/-- **C1.** When both an `account_id` and a `facility_id` are supplied and
the store's facility with that `facility_id` is owned by a different
account, `fetch_account_details` returns `success=False` with the message
naming the mismatch, and no structured account field of either account is
populated. -/
theorem mismatched_account_facility_fails (s : Store) (cfg : ToolConfig)
    (a f : String) (fr : FacilityRow)
    (ha : cfg.account_id = some a) (ha2 : a ≠ "")
    (hf : cfg.facility_id = some f) (hf2 : f ≠ "")
    (hfr : findFacility s f = some fr) (hne : fr.account_id ≠ a) :
    fetch_account_details s cfg =
      accountFailure ("Account ID \x27" ++ a ++ "\x27 does not match facility \x27" ++ f ++
        "\x27 which belongs to account \x27" ++ fr.account_id ++ "\x27.") ∧
    (fetch_account_details s cfg).success = false ∧
    (fetch_account_details s cfg).account_id = none ∧
    (fetch_account_details s cfg).name = none ∧
    (fetch_account_details s cfg).status = none ∧
    (fetch_account_details s cfg).facilities = none := by
  have hsa := struthy_some_of_ne ha2
  have hsf := struthy_some_of_ne hf2
  have hmain : fetch_account_details s cfg =
      accountFailure ("Account ID \x27" ++ a ++ "\x27 does not match facility \x27" ++ f ++
        "\x27 which belongs to account \x27" ++ fr.account_id ++ "\x27.") := by
    simp only [fetch_account_details, ha, hf, hsa, hsf, hfr, Bool.not_true, Bool.false_and,
      Bool.true_and, if_false, Option.getD_some, bne_iff_ne, ne_eq, hne, not_false_eq_true,
      if_true, reduceIte]
    simp
  exact ⟨hmain, by rw [hmain]; rfl, by rw [hmain]; rfl, by rw [hmain]; rfl,
    by rw [hmain]; rfl, by rw [hmain]; rfl⟩

/-- Witness for C1 at a concrete store: supplied account `A-2`, facility
`F-1` owned by `A-1`. -/
theorem mismatched_account_facility_fails_witness :
    fetch_account_details wStore { account_id := some "A-2", facility_id := some "F-1" } =
      accountFailure "Account ID \x27A-2\x27 does not match facility \x27F-1\x27 which belongs to account \x27A-1\x27." ∧
    (fetch_account_details wStore
      { account_id := some "A-2", facility_id := some "F-1" }).success = false ∧
    (fetch_account_details wStore
      { account_id := some "A-2", facility_id := some "F-1" }).account_id = none ∧
    (fetch_account_details wStore
      { account_id := some "A-2", facility_id := some "F-1" }).name = none ∧
    (fetch_account_details wStore
      { account_id := some "A-2", facility_id := some "F-1" }).status = none ∧
    (fetch_account_details wStore
      { account_id := some "A-2", facility_id := some "F-1" }).facilities = none :=
  mismatched_account_facility_fails wStore
    { account_id := some "A-2", facility_id := some "F-1" } "A-2" "F-1" wFacility
    rfl (by decide) rfl (by decide) (by decide) (by decide)

/-- **C2.** When no `account_id` is supplied but a `facility_id` is,
`fetch_account_details` resolves the owning account from the store's
facility row and proceeds with that account; when no facility with that
id exists it fails with the facility-not-found message and returns no
account data. -/
theorem facility_resolves_account (s : Store) (cfg : ToolConfig) (f : String)
    (hna : struthy cfg.account_id = false)
    (hf : cfg.facility_id = some f) (hf2 : f ≠ "") :
    (∀ fr, findFacility s f = some fr →
      fetch_account_details s cfg = accountLookup s (some fr.account_id)) ∧
    (findFacility s f = none →
      fetch_account_details s cfg =
        accountFailure ("Facility \x27" ++ f ++
          "\x27 not found. Cannot determine account information.")) := by
  have hsf := struthy_some_of_ne hf2
  constructor
  · intro fr hfr
    simp only [fetch_account_details, hna, hf, hsf, hfr, Bool.not_false, Bool.true_and,
      Bool.false_and, if_true, if_false, Option.getD_some, reduceIte]
  · intro hfr
    simp only [fetch_account_details, hna, hf, hsf, hfr, Bool.not_false, Bool.true_and,
      Bool.false_and, if_true, if_false, Option.getD_some, reduceIte]

/-- Witness for C2: facility `F-1` resolves to account `A-1`; facility
`F-9` does not exist. -/
theorem facility_resolves_account_witness :
    fetch_account_details wStore { facility_id := some "F-1" } =
      accountLookup wStore (some "A-1") ∧
    fetch_account_details wStore { facility_id := some "F-9" } =
      accountFailure "Facility \x27F-9\x27 not found. Cannot determine account information." :=
  ⟨(facility_resolves_account wStore { facility_id := some "F-1" } "F-1"
      (by decide) rfl (by decide)).1 wFacility (by decide),
   (facility_resolves_account wStore { facility_id := some "F-9" } "F-9"
      (by decide) rfl (by decide)).2 (by decide)⟩

/-- **C8.** The context-resolution path of the account fetch is
idempotent: two invocations with identical inputs against an unchanged
store return identical results.  (The tool only issues `SELECT`s, which
the embedding reflects by leaving the store untouched.) -/
theorem resolver_idempotent (s : Store) (cfg : ToolConfig) (r1 r2 : AccountResponse)
    (h1 : r1 = fetch_account_details s cfg) (h2 : r2 = fetch_account_details s cfg) :
    r1 = r2 :=
  h1.trans h2.symm

/-- Witness for C8 at a concrete store and config. -/
theorem resolver_idempotent_witness :
    fetch_account_details wStore { account_id := some "A-1" } =
      fetch_account_details wStore { account_id := some "A-1" } :=
  resolver_idempotent wStore { account_id := some "A-1" } _ _ rfl rfl

/-- **C3.** For an `account_id` matching exactly one stored account row,
`fetch_account_details` succeeds and reproduces every stored field in the
structured projection (timestamps through their `str()` rendering),
together with the joined facility list of the account. -/
theorem account_roundtrip (s : Store) (cfg : ToolConfig) (aid : String) (row : AccountRow)
    (ha : cfg.account_id = some aid) (hstrip : pyStrip aid ≠ "")
    (hfid : struthy cfg.facility_id = false)
    (hrow : accountsMatching s aid = [row]) :
    fetch_account_details s cfg =
      { success := true
        message := some "Account details retrieved successfully"
        account_id := some row.account_id
        name := row.account_name
        status := row.status
        is_tna := row.is_tna
        created_at := row.created_at.map tsToString
        pricing_model := row.pricing_model
        address_line1 := row.address_line1
        address_line2 := row.address_line2
        address_city := row.address_city
        address_state := row.address_state
        address_postal_code := row.address_postal_code
        address_country := row.address_country
        facilities := some ((facilitiesOfAccount s row.account_id).map facilityInfoOf)
        total_amount_due := row.total_amount_due
        total_amount_due_this_week := row.total_amount_due_this_week
        invoice_id := row.invoice_id
        invoice_amount := row.invoice_amount
        invoice_due_date := row.invoice_due_date
        current_balance := row.current_balance
        pending_balance := row.pending_balance
        points_earned_this_quarter := row.points_earned_this_quarter
        current_tier := row.current_tier
        next_tier := row.next_tier
        points_to_next_tier := row.points_to_next_tier
        quarter_end_date := row.quarter_end_date.map tsToString
        free_vials_available := row.free_vials_available
        rewards_required_for_next_free_vial := row.rewards_required_for_next_free_vial
        rewards_redeemed_towards_next_free_vial := row.rewards_redeemed_towards_next_free_vial
        rewards_status := row.rewards_status
        rewards_updated_at := row.rewards_updated_at.map tsToString
        evolux_level := row.evolux_level } := by
  have ha2 : aid ≠ "" := ne_empty_of_trim hstrip
  have hsa := struthy_some_of_ne ha2
  have hse : strippedEmpty (some aid) = false := by
    simp [strippedEmpty_some, hstrip]
  have hmain : fetch_account_details s cfg = accountProjection s row := by
    simp only [fetch_account_details, ha, hfid, hsa, Bool.and_false, Bool.not_true,
      Bool.false_and, Bool.true_and, if_false, reduceIte, accountLookup, hse,
      Bool.or_false, Option.getD_some, hrow]
    simp
  exact hmain

/-- A fully populated account row for the C3 witness. -/
def wRichRow : AccountRow :=
  { account_id := "A-7"
    account_name := some "Acme Seven"
    status := some "active"
    is_tna := some false
    created_at := some 100
    pricing_model := some "tiered"
    address_line1 := some "1 Main St"
    address_city := some "Springfield"
    address_state := some "IL"
    address_postal_code := some "62701"
    address_country := some "US"
    total_amount_due := some 150
    total_amount_due_this_week := some 50
    invoice_id := some "INV-1"
    invoice_amount := some 150
    invoice_due_date := some "2025-01-01"
    current_balance := some 10
    pending_balance := some 5
    points_earned_this_quarter := some 42
    current_tier := some "Silver"
    next_tier := some "Gold"
    points_to_next_tier := some 8
    quarter_end_date := some 200
    free_vials_available := some 1
    rewards_required_for_next_free_vial := some 20
    rewards_redeemed_towards_next_free_vial := some 12
    rewards_status := some "ok"
    rewards_updated_at := some 150
    evolux_level := some "L2" }

/-- A store holding `wRichRow` and one facility of that account. -/
def wRichStore : Store :=
  { accounts := [wRichRow]
    facilities := [{ facility_id := "F-7", account_id := "A-7",
                     facility_name := some "Seven Clinic", status := some "open" }]
    notes := []
    next_note_id := 1
    now := 10 }

/-- Witness for C3 at `wRichStore`. -/
theorem account_roundtrip_witness :
    fetch_account_details wRichStore { account_id := some "A-7" } =
      { success := true
        message := some "Account details retrieved successfully"
        account_id := some "A-7"
        name := some "Acme Seven"
        status := some "active"
        is_tna := some false
        created_at := some "100"
        pricing_model := some "tiered"
        address_line1 := some "1 Main St"
        address_city := some "Springfield"
        address_state := some "IL"
        address_postal_code := some "62701"
        address_country := some "US"
        facilities := some [{ id := some "F-7", name := some "Seven Clinic",
                              status := some "open" }]
        total_amount_due := some 150
        total_amount_due_this_week := some 50
        invoice_id := some "INV-1"
        invoice_amount := some 150
        invoice_due_date := some "2025-01-01"
        current_balance := some 10
        pending_balance := some 5
        points_earned_this_quarter := some 42
        current_tier := some "Silver"
        next_tier := some "Gold"
        points_to_next_tier := some 8
        quarter_end_date := some "200"
        free_vials_available := some 1
        rewards_required_for_next_free_vial := some 20
        rewards_redeemed_towards_next_free_vial := some 12
        rewards_status := some "ok"
        rewards_updated_at := some "150"
        evolux_level := some "L2" } :=
  account_roundtrip wRichStore { account_id := some "A-7" } "A-7" wRichRow
    rfl (by decide) (by decide) rfl

/-- **C7.** `create(history)` followed by `update(id, newHistory)` and
`get(id)` succeeds and returns exactly the newly written message
sequence: no merging with the prior history, no loss, no reordering. -/
theorem conversation_update_roundtrip (s : Store) (newId : String)
    (h h2 : List Message) (aid fid : Option String) :
    (update_conversation (create_conversation s newId h aid fid).2
        (create_conversation s newId h aid fid).1 h2).1 = true ∧
    (get_conversation
        (update_conversation (create_conversation s newId h aid fid).2
          (create_conversation s newId h aid fid).1 h2).2
        (create_conversation s newId h aid fid).1).map
      (fun c => c.conversation_history) = some h2 := by
  set row : ConvoRow :=
    { conversation_id := newId
      conversation_history := some h
      account_id := aid
      facility_id := fid
      created_at := s.now
      updated_at := s.now } with hrowdef
  have hpr : (row.conversation_id == newId) = true := by
    simp [hrowdef]
  constructor
  · -- the update matched at least the created row
    simp only [create_conversation, update_conversation, decide_eq_true_eq]
    rw [List.filter_append]
    simp [hpr]
  · -- the first row found by get carries exactly the new history
    simp only [create_conversation, update_conversation, get_conversation]
    rw [List.map_append, List.filter_append]
    have hupd : (List.map (fun c =>
        if c.conversation_id == newId then
          { c with conversation_history := some h2, updated_at := s.now }
        else c) [row]).filter (fun c => c.conversation_id == newId) =
        [{ row with conversation_history := some h2, updated_at := s.now }] := by
      simp [hpr]
    rw [hupd]
    -- every row surviving the filter after the update carries history h2
    have hall : ∀ l : List ConvoRow, ∀ c ∈ (List.map (fun c =>
        if c.conversation_id == newId then
          { c with conversation_history := some h2, updated_at := s.now }
        else c) l).filter (fun c => c.conversation_id == newId),
        c.conversation_history = some h2 := by
      intro l c hc
      have hcm := (List.mem_filter.mp hc).1
      have hcp := (List.mem_filter.mp hc).2
      rw [List.mem_map] at hcm
      obtain ⟨d, _, hd⟩ := hcm
      by_cases hdid : (d.conversation_id == newId) = true
      · rw [if_pos hdid] at hd
        rw [← hd]
      · rw [if_neg hdid] at hd
        rw [← hd] at hcp
        exact absurd hcp hdid
    set front := (List.map (fun c =>
        if c.conversation_id == newId then
          { c with conversation_history := some h2, updated_at := s.now }
        else c) s.convos).filter (fun c => c.conversation_id == newId) with hfront
    rcases hfe : front with _ | ⟨c0, cs⟩
    · simp
    · have hc0 : c0.conversation_history = some h2 := by
        apply hall s.convos
        rw [← hfront, hfe]
        exact List.mem_cons_self c0 cs
      simp [hc0]

/-- **C10.** When the facility query of `fetch_facility_details` matches
more than one row, the result is `success=True` with a message listing
each facility's name, id and account, and every structured per-facility
field left unset; the zero-row case alone yields `success=False`. -/
theorem facility_multi_match (s : Store) (cfg : ToolConfig)
    (hpresent : struthy cfg.facility_id = true ∨ struthy cfg.account_id = true) :
    (2 ≤ (facilityQueryResults s cfg).length →
      fetch_facility_details s cfg =
        { success := true
          message := some (facilityMultiMsg (facilityQueryResults s cfg)) }) ∧
    ((facilityQueryResults s cfg).length = 0 →
      fetch_facility_details s cfg =
        facilityFailure "No facilities found with the provided criteria.") := by
  have hcond : (!(struthy cfg.facility_id) && !(struthy cfg.account_id)) = false := by
    rcases hpresent with hp | hp <;> simp [hp]
  constructor
  · intro hlen
    simp only [fetch_facility_details, hcond, if_false, Bool.false_eq_true, reduceIte]
    rcases hl : facilityQueryResults s cfg with _ | ⟨a, _ | ⟨b, t⟩⟩
    · rw [hl] at hlen; simp at hlen
    · rw [hl] at hlen; simp at hlen
    · rfl
  · intro hlen
    simp only [fetch_facility_details, hcond, if_false, Bool.false_eq_true, reduceIte]
    rcases hl : facilityQueryResults s cfg with _ | ⟨a, t⟩
    · rfl
    · rw [hl] at hlen; simp at hlen

/-- A store with one account owning two facilities, for the C10 witness. -/
def wTwoStore : Store :=
  { accounts := [{ account_id := "A-1", account_name := some "Acme" }]
    facilities := [{ facility_id := "F-1", account_id := "A-1", facility_name := some "Clinic" },
                   { facility_id := "F-2", account_id := "A-1" }]
    notes := []
    next_note_id := 1
    now := 10 }

/-- Witness for C10: the account-wide query matches two facilities; a
nonexistent facility id matches zero rows. -/
theorem facility_multi_match_witness :
    fetch_facility_details wTwoStore { account_id := some "A-1" } =
      { success := true
        message := some (facilityMultiMsg
          (facilityQueryResults wTwoStore { account_id := some "A-1" })) } ∧
    fetch_facility_details wTwoStore { facility_id := some "F-9" } =
      facilityFailure "No facilities found with the provided criteria." :=
  ⟨(facility_multi_match wTwoStore { account_id := some "A-1" }
      (Or.inr (by decide))).1 (by decide),
   (facility_multi_match wTwoStore { facility_id := some "F-9" }
      (Or.inl (by decide))).2 (by decide)⟩

/-- **C9.** `get_notes` validates that supplied scope ids exist: a
truthy `account_id` matching no stored account, or a truthy
`facility_id` matching no stored facility, yields `success=False` with a
not-found message and an empty notes payload. -/
theorem get_notes_validates_existence (s : Store) (cfg : ToolConfig)
    (hu : struthy cfg.user_id = true) (hu2 : strippedEmpty cfg.user_id = false) :
    (struthy cfg.account_id = true → accountsMatching s (cfg.account_id.getD "") = [] →
      get_notes s cfg =
        { success := false
          message := some ("Account with ID \x27" ++ cfg.account_id.getD "" ++
            "\x27 not found.") }) ∧
    (struthy cfg.facility_id = true →
      (struthy cfg.account_id = false ∨ accountsMatching s (cfg.account_id.getD "") ≠ []) →
      facilitiesMatching s (cfg.facility_id.getD "") = [] →
      get_notes s cfg =
        { success := false
          message := some ("Facility with ID \x27" ++ cfg.facility_id.getD "" ++
            "\x27 not found.") }) := by
  have huser : (!(struthy cfg.user_id) || strippedEmpty cfg.user_id) = false := by
    simp [hu, hu2]
  constructor
  · intro hacc hempty
    simp only [get_notes, huser, Bool.false_eq_true, reduceIte, hacc, Bool.not_true,
      Bool.false_and, hempty, List.isEmpty_nil, Bool.and_true, Bool.true_and]
  · intro hfac hacc hempty
    have hacond : (struthy cfg.account_id &&
        (accountsMatching s (cfg.account_id.getD "")).isEmpty) = false := by
      rcases hacc with hp | hp
      · simp [hp]
      · rcases hl : accountsMatching s (cfg.account_id.getD "") with _ | ⟨a, t⟩
        · exact absurd hl hp
        · simp [hl]
    simp only [get_notes, huser, Bool.false_eq_true, reduceIte, hfac, hacond, Bool.not_true,
      Bool.false_and, Bool.true_and, hempty, List.isEmpty_nil, Bool.and_true]
    simp

/-- Witness for C9: nonexistent account `A-9` and facility `F-9`. -/
theorem get_notes_validates_existence_witness :
    get_notes wStore { user_id := some "u", account_id := some "A-9" } =
      { success := false, message := some "Account with ID \x27A-9\x27 not found." } ∧
    get_notes wStore { user_id := some "u", facility_id := some "F-9" } =
      { success := false, message := some "Facility with ID \x27F-9\x27 not found." } :=
  ⟨(get_notes_validates_existence wStore { user_id := some "u", account_id := some "A-9" }
      (by decide) (by decide)).1 (by decide) (by decide),
   (get_notes_validates_existence wStore { user_id := some "u", facility_id := some "F-9" }
      (by decide) (by decide)).2 (by decide) (Or.inl (by decide)) (by decide)⟩

/-- The validation conditions under which `save_note` rejects the call:
blank content, blank user, no scope id present, or a supplied scope id
that does not exist in the store. -/
def saveNoteRejects (s : Store) (cfg : ToolConfig) : Prop :=
  (!(struthy cfg.note_content) || strippedEmpty cfg.note_content) = true ∨
  (!(struthy cfg.user_id) || strippedEmpty cfg.user_id) = true ∨
  (struthy cfg.account_id = false ∧ struthy cfg.facility_id = false) ∨
  (struthy cfg.account_id = true ∧ accountsMatching s (cfg.account_id.getD "") = []) ∨
  (struthy cfg.facility_id = true ∧ facilitiesMatching s (cfg.facility_id.getD "") = [])

instance (s : Store) (cfg : ToolConfig) : Decidable (saveNoteRejects s cfg) := by
  unfold saveNoteRejects
  infer_instance

theorem bool_eq_false_of_ne_true {b : Bool} (h : ¬ b = true) : b = false := by
  cases b
  · rfl
  · exact absurd rfl h

/-- **C6.** `save_note` returns a validation failure and leaves the store
unchanged exactly under the conditions of `saveNoteRejects`; in every
other case it appends exactly one note row and returns `success=True`
with the generated note id and the creation timestamp in the
confirmation message. -/
theorem save_note_validation (s : Store) (cfg : ToolConfig) :
    (saveNoteRejects s cfg →
      (save_note s cfg).1.success = false ∧ (save_note s cfg).2 = s) ∧
    (¬ saveNoteRejects s cfg →
      (save_note s cfg).1.success = true ∧
      (save_note s cfg).2.notes = s.notes ++ [savedNoteRow s cfg] ∧
      (save_note s cfg).2.accounts = s.accounts ∧
      (save_note s cfg).2.facilities = s.facilities ∧
      (save_note s cfg).2.convos = s.convos ∧
      (save_note s cfg).1.note_id = some s.next_note_id ∧
      (savedNoteRow s cfg).created_at = s.now) := by
  by_cases h1 : (!(struthy cfg.note_content) || strippedEmpty cfg.note_content) = true
  · exact ⟨fun _ => by constructor <;> simp [save_note, h1],
      fun hn => absurd (Or.inl h1) hn⟩
  have hf1 := bool_eq_false_of_ne_true h1
  by_cases h2 : (!(struthy cfg.user_id) || strippedEmpty cfg.user_id) = true
  · exact ⟨fun _ => by constructor <;> simp [save_note, hf1, h2],
      fun hn => absurd (Or.inr (Or.inl h2)) hn⟩
  have hf2 := bool_eq_false_of_ne_true h2
  by_cases h3 : (!(struthy cfg.account_id) && !(struthy cfg.facility_id)) = true
  · have h3' : struthy cfg.account_id = false ∧ struthy cfg.facility_id = false := by
      constructor <;> [skip; skip] <;>
        (revert h3
         cases struthy cfg.account_id <;> cases struthy cfg.facility_id <;> simp)
    exact ⟨fun _ => by constructor <;> simp [save_note, hf1, hf2, h3],
      fun hn => absurd (Or.inr (Or.inr (Or.inl h3'))) hn⟩
  have hf3 := bool_eq_false_of_ne_true h3
  by_cases h4 : (struthy cfg.account_id &&
      (accountsMatching s (cfg.account_id.getD "")).isEmpty) = true
  · have h4' : struthy cfg.account_id = true ∧
        accountsMatching s (cfg.account_id.getD "") = [] := by
      have ha := (Bool.and_eq_true _ _).mp h4
      exact ⟨ha.1, List.isEmpty_iff.mp ha.2⟩
    exact ⟨fun _ => by constructor <;> simp [save_note, hf1, hf2, hf3, h4],
      fun hn => absurd (Or.inr (Or.inr (Or.inr (Or.inl h4')))) hn⟩
  have hf4 := bool_eq_false_of_ne_true h4
  by_cases h5 : (struthy cfg.facility_id &&
      (facilitiesMatching s (cfg.facility_id.getD "")).isEmpty) = true
  · have h5' : struthy cfg.facility_id = true ∧
        facilitiesMatching s (cfg.facility_id.getD "") = [] := by
      have hb := (Bool.and_eq_true _ _).mp h5
      exact ⟨hb.1, List.isEmpty_iff.mp hb.2⟩
    exact ⟨fun _ => by constructor <;> simp [save_note, hf1, hf2, hf3, hf4, h5],
      fun hn => absurd (Or.inr (Or.inr (Or.inr (Or.inr h5')))) hn⟩
  have hf5 := bool_eq_false_of_ne_true h5
  constructor
  · intro hrej
    exfalso
    rcases hrej with hd | hd | hd | hd | hd
    · exact absurd hd h1
    · exact absurd hd h2
    · rw [hd.1, hd.2] at hf3
      simp at hf3
    · rw [hd.1, hd.2] at hf4
      simp at hf4
    · rw [hd.1, hd.2] at hf5
      simp at hf5
  · intro _
    refine ⟨?_, ?_, ?_, ?_, ?_, ?_, rfl⟩ <;>
      simp [save_note, savedNoteRow, hf1, hf2, hf3, hf4, hf5]

/-- The successful C6 witness configuration. -/
def wSaveCfg : ToolConfig :=
  { user_id := some "u", account_id := some "A-1", note_content := some "call back" }

/-- The rejected C6 witness configuration (blank content). -/
def wSaveCfgBad : ToolConfig :=
  { user_id := some "u", account_id := some "A-1" }

/-- Witness for C6: a successful save at `wStore` and a rejected one
(blank content). -/
theorem save_note_validation_witness :
    ((save_note wStore wSaveCfg).1.success = true ∧
     (save_note wStore wSaveCfg).2.notes =
       wStore.notes ++ [savedNoteRow wStore wSaveCfg] ∧
     (save_note wStore wSaveCfg).2.accounts = wStore.accounts ∧
     (save_note wStore wSaveCfg).2.facilities = wStore.facilities ∧
     (save_note wStore wSaveCfg).2.convos = wStore.convos ∧
     (save_note wStore wSaveCfg).1.note_id = some wStore.next_note_id ∧
     (savedNoteRow wStore wSaveCfg).created_at = wStore.now) ∧
    ((save_note wStore wSaveCfgBad).1.success = false ∧
     (save_note wStore wSaveCfgBad).2 = wStore) :=
  ⟨(save_note_validation wStore wSaveCfg).2 (by decide),
   (save_note_validation wStore wSaveCfgBad).1 (Or.inl (by decide))⟩

/-! ### Helper lemmas about the notes ordering -/

theorem take_head_of_pos {α : Type} (l : List α) (k : Nat) (hk : 0 < k) :
    (l.take k).head? = l.head? := by
  cases l
  · simp
  · cases k
    · exact absurd hk (by simp)
    · simp

/-- The head of the newest-first sort is the element with strictly
maximal timestamp. -/
theorem sorted_head_of_strict_max (l : List NoteRow) (n : NoteRow)
    (hmem : n ∈ l) (hmax : ∀ m ∈ l, m = n ∨ m.created_at < n.created_at) :
    (sortNotesDesc l).head? = some n := by
  have hperm : List.Perm (sortNotesDesc l) l := List.perm_insertionSort _ l
  have hsorted : List.Sorted noteDescRel (sortNotesDesc l) := List.sorted_insertionSort _ l
  rcases hs : sortNotesDesc l with _ | ⟨h0, tl⟩
  · rw [hs] at hperm
    rw [hperm.symm.eq_nil] at hmem
    exact absurd hmem (List.not_mem_nil n)
  · rw [hs] at hperm hsorted
    have hh0 : h0 ∈ l := hperm.subset (List.mem_cons_self h0 tl)
    rcases hmax h0 hh0 with he | hlt
    · rw [he]
      rfl
    · exfalso
      have hn : n ∈ h0 :: tl := hperm.symm.subset hmem
      rcases List.mem_cons.mp hn with he2 | htl
      · rw [he2] at hlt
        exact Nat.lt_irrefl _ hlt
      · have hr : noteDescRel h0 n := (List.pairwise_cons.mp hsorted).1 n htl
        exact Nat.lt_irrefl _ (Nat.lt_of_lt_of_le hlt hr)

/-- Appending a fresh note whose timestamp strictly dominates the old
ones and querying newest-first puts the fresh note at the head. -/
theorem head_take_sort_append (l0 : List NoteRow) (row : NoteRow) (pred : NoteRow → Bool)
    (lim : Nat) (hlim : 0 < lim) (hpred : pred row = true)
    (hmax : ∀ m ∈ l0, m.created_at < row.created_at) :
    ((sortNotesDesc ((l0 ++ [row]).filter pred)).take lim).head? = some row := by
  have hfil : (l0 ++ [row]).filter pred = l0.filter pred ++ [row] := by
    rw [List.filter_append]
    simp [hpred]
  rw [take_head_of_pos _ _ hlim, hfil]
  apply sorted_head_of_strict_max
  · simp
  · intro m hm
    rcases List.mem_append.mp hm with hm0 | hm1
    · exact Or.inr (hmax m (List.mem_of_mem_filter hm0))
    · exact Or.inl (List.mem_singleton.mp hm1)

/-- The freshly inserted note heads every scoped notes query whose scope
ids match the note's own. -/
theorem getNotesQuery_fresh_head (s1 : Store) (l0 : List NoteRow) (row : NoteRow)
    (hs1 : s1.notes = l0 ++ [row]) (aid fid : Option String) (lim : Nat) (hlim : 0 < lim)
    (hacc : row.account_id = aid) (hfac : row.facility_id = fid)
    (hnn : aid.isSome ∨ fid.isSome)
    (hmax : ∀ m ∈ l0, m.created_at < row.created_at) :
    (getNotesQuery s1 aid fid row.user_id lim).head? = some row := by
  rcases aid with _ | a <;> rcases fid with _ | f
  · simp at hnn
  · have hpred : facilityOnlyNote f row.user_id row = true := by
      simp [facilityOnlyNote, hacc, hfac]
    simp only [getNotesQuery, hs1]
    exact head_take_sort_append l0 row _ lim hlim hpred hmax
  · have hpred : accountOnlyNote a row.user_id row = true := by
      simp [accountOnlyNote, hacc, hfac]
    simp only [getNotesQuery, hs1]
    exact head_take_sort_append l0 row _ lim hlim hpred hmax
  · have hpred : bothScopeNote a f row.user_id row = true := by
      simp [bothScopeNote, hacc, hfac]
    simp only [getNotesQuery, hs1]
    exact head_take_sort_append l0 row _ lim hlim hpred hmax

theorem idOrNull_isSome_of (o : Option String) (hs : struthy o = true)
    (hcl : strippedEmpty o = false) : (idOrNull o).isSome = true := by
  rcases o with _ | x
  · exact absurd hs (by simp [struthy])
  · simp [idOrNull, hs, hcl]

/-- The store after a successful `save_note`: the fresh row appended and
the serial counter advanced. -/
def bumpNotes (s : Store) (row : NoteRow) : Store :=
  { s with notes := s.notes ++ [row], next_note_id := s.next_note_id + 1 }

/-- **C5.** `get_notes` returns at most `limit` notes, ordered newest
first; and after a successful `save_note` under a strictly advanced
clock, an immediate `get_notes` with the same scope ids returns the
just-saved note first. -/
theorem notes_newest_first (s : Store) (cfg : ToolConfig)
    (hclock : ∀ n ∈ s.notes, n.created_at < s.now)
    (hlim : 0 < cfg.limit)
    (hca : struthy cfg.account_id = false ∨ strippedEmpty cfg.account_id = false)
    (hcf : struthy cfg.facility_id = false ∨ strippedEmpty cfg.facility_id = false)
    (hsucc : (save_note s cfg).1.success = true) :
    (∀ s0 cfg0, (get_notes s0 cfg0).notes.length ≤ cfg0.limit) ∧
    (∀ s0 aid fid u lim, List.Pairwise (fun x y => y.created_at ≤ x.created_at)
      (getNotesQuery s0 aid fid u lim)) ∧
    (get_notes (save_note s cfg).2 cfg).notes.head? =
      some (noteInfoOf (savedNoteRow s cfg)) := by
  refine ⟨?_, ?_, ?_⟩
  · intro s0 cfg0
    simp only [get_notes]
    repeat' split
    all_goals
      simp [getNotesQuery, List.length_take, Nat.min_le_left]
  · intro s0 aid fid u lim
    show List.Pairwise noteDescRel (getNotesQuery s0 aid fid u lim)
    simp only [getNotesQuery]
    exact List.Pairwise.sublist (List.take_sublist _ _)
      (List.sorted_insertionSort noteDescRel _)
  · have hg1 : (!(struthy cfg.note_content) || strippedEmpty cfg.note_content) = false := by
      cases hg : (!(struthy cfg.note_content) || strippedEmpty cfg.note_content)
      · rfl
      · simp [save_note, hg] at hsucc
    have hg2 : (!(struthy cfg.user_id) || strippedEmpty cfg.user_id) = false := by
      cases hg : (!(struthy cfg.user_id) || strippedEmpty cfg.user_id)
      · rfl
      · simp [save_note, hg1, hg] at hsucc
    have hg3 : (!(struthy cfg.account_id) && !(struthy cfg.facility_id)) = false := by
      cases hg : (!(struthy cfg.account_id) && !(struthy cfg.facility_id))
      · rfl
      · simp [save_note, hg1, hg2, hg] at hsucc
    have hg4 : (struthy cfg.account_id &&
        (accountsMatching s (cfg.account_id.getD "")).isEmpty) = false := by
      cases hg : (struthy cfg.account_id &&
          (accountsMatching s (cfg.account_id.getD "")).isEmpty)
      · rfl
      · simp [save_note, hg1, hg2, hg3, hg] at hsucc
    have hg5 : (struthy cfg.facility_id &&
        (facilitiesMatching s (cfg.facility_id.getD "")).isEmpty) = false := by
      cases hg : (struthy cfg.facility_id &&
          (facilitiesMatching s (cfg.facility_id.getD "")).isEmpty)
      · rfl
      · simp [save_note, hg1, hg2, hg3, hg4, hg] at hsucc
    have hs2 : (save_note s cfg).2 = bumpNotes s (savedNoteRow s cfg) := by
      simp [save_note, bumpNotes, hg1, hg2, hg3, hg4, hg5]
    rw [hs2]
    have hg4' : (struthy cfg.account_id &&
        (accountsMatching (bumpNotes s (savedNoteRow s cfg))
          (cfg.account_id.getD "")).isEmpty) = false := hg4
    have hg5' : (struthy cfg.facility_id &&
        (facilitiesMatching (bumpNotes s (savedNoteRow s cfg))
          (cfg.facility_id.getD "")).isEmpty) = false := hg5
    have hpres : struthy cfg.account_id = true ∨ struthy cfg.facility_id = true := by
      cases ha : struthy cfg.account_id
      · cases hf : struthy cfg.facility_id
        · rw [ha, hf] at hg3
          simp at hg3
        · exact Or.inr rfl
      · exact Or.inl rfl
    have hnn : (idOrNull cfg.account_id).isSome = true ∨
        (idOrNull cfg.facility_id).isSome = true := by
      rcases hpres with hx | hx
      · refine Or.inl (idOrNull_isSome_of _ hx ?_)
        rcases hca with hy | hy
        · rw [hx] at hy
          simp at hy
        · exact hy
      · refine Or.inr (idOrNull_isSome_of _ hx ?_)
        rcases hcf with hy | hy
        · rw [hx] at hy
          simp at hy
        · exact hy
    have hhead : (getNotesQuery (bumpNotes s (savedNoteRow s cfg)) (idOrNull cfg.account_id)
        (idOrNull cfg.facility_id) (pyStrip (cfg.user_id.getD "")) cfg.limit).head? =
        some (savedNoteRow s cfg) :=
      getNotesQuery_fresh_head _ s.notes (savedNoteRow s cfg) rfl _ _ cfg.limit hlim
        rfl rfl hnn (fun m hm => hclock m hm)
    have hne : (getNotesQuery (bumpNotes s (savedNoteRow s cfg)) (idOrNull cfg.account_id)
        (idOrNull cfg.facility_id) (pyStrip (cfg.user_id.getD "")) cfg.limit).isEmpty
        = false := by
      rcases hq : getNotesQuery (bumpNotes s (savedNoteRow s cfg)) (idOrNull cfg.account_id)
          (idOrNull cfg.facility_id) (pyStrip (cfg.user_id.getD "")) cfg.limit
          with _ | ⟨x, xs⟩
      · rw [hq] at hhead
        simp at hhead
      · rfl
    simp only [get_notes, hg2, hg3, hg4', hg5', hne, Bool.false_eq_true, reduceIte,
      List.head?_map, hhead]
    rfl

/-- The C5 witness configuration. -/
def wNoteCfg : ToolConfig :=
  { user_id := some "u", account_id := some "A-1", note_content := some "hello" }

/-- Witness for C5: saving then reading at `wStore` returns the fresh
note first, and never more than `limit` notes. -/
theorem notes_newest_first_witness :
    (get_notes wStore wNoteCfg).notes.length ≤ wNoteCfg.limit ∧
    (get_notes (save_note wStore wNoteCfg).2 wNoteCfg).notes.head? =
      some (noteInfoOf (savedNoteRow wStore wNoteCfg)) :=
  ⟨(notes_newest_first wStore wNoteCfg (by decide) (by decide)
      (Or.inr (by decide)) (Or.inl (by decide)) (by decide)).1 wStore wNoteCfg,
   (notes_newest_first wStore wNoteCfg (by decide) (by decide)
      (Or.inr (by decide)) (Or.inl (by decide)) (by decide)).2.2⟩

/-! ### C4: scoping of get_notes -/

theorem struthy_none : struthy none = false := rfl

/-- Taking at least as many elements as the list holds after sorting is a
permutation of the original list. -/
theorem take_sort_perm (l : List NoteRow) (lim : Nat) (h : l.length ≤ lim) :
    List.Perm ((sortNotesDesc l).take lim) l := by
  have hlen : (sortNotesDesc l).length ≤ lim := by
    show (List.insertionSort noteDescRel l).length ≤ lim
    rw [(List.perm_insertionSort noteDescRel l).length_eq]
    exact h
  rw [List.take_of_length_le hlen]
  exact List.perm_insertionSort noteDescRel l

/-- On the validated path, the notes returned by `get_notes` are exactly
the projection of the scoped query result. -/
theorem get_notes_notes_perm (s : Store) (cfg : ToolConfig)
    (hu : (!(struthy cfg.user_id) || strippedEmpty cfg.user_id) = false)
    (hpres : (!(struthy cfg.account_id) && !(struthy cfg.facility_id)) = false)
    (hae : (struthy cfg.account_id &&
      (accountsMatching s (cfg.account_id.getD "")).isEmpty) = false)
    (hfe : (struthy cfg.facility_id &&
      (facilitiesMatching s (cfg.facility_id.getD "")).isEmpty) = false) :
    List.Perm (get_notes s cfg).notes
      ((getNotesQuery s (idOrNull cfg.account_id) (idOrNull cfg.facility_id)
        (pyStrip (cfg.user_id.getD "")) cfg.limit).map noteInfoOf) := by
  simp only [get_notes, hu, hpres, hae, hfe, Bool.false_eq_true, reduceIte]
  by_cases hre : (getNotesQuery s (idOrNull cfg.account_id) (idOrNull cfg.facility_id)
      (pyStrip (cfg.user_id.getD "")) cfg.limit).isEmpty = true
  · simp only [hre, reduceIte]
    rw [List.isEmpty_iff.mp hre]
    simp
  · have hre' := bool_eq_false_of_ne_true hre
    simp only [hre', Bool.false_eq_true, reduceIte]
    exact List.Perm.refl _

/-- A store whose single note references an account that does not exist:
`get_notes` then fails the existence check and returns no notes even
though a matching note is stored. -/
def cexOrphanStore : Store :=
  { accounts := []
    facilities := []
    notes := [{ note_id := 1, account_id := some "A-1", facility_id := none,
                user_id := "u", note_content := "x", created_at := 0 }]
    next_note_id := 2
    now := 1 }

/-- A store with eleven matching account-scoped notes: the default
`limit` of 10 truncates the result. -/
def cexManyStore : Store :=
  { accounts := [{ account_id := "A-1" }]
    facilities := []
    notes := (List.range 11).map (fun i =>
      { note_id := i + 1, account_id := some "A-1", facility_id := none,
        user_id := "u", note_content := "x", created_at := i })
    next_note_id := 12
    now := 20 }

/-- **C4, counterexample.** As stated over every store the claim fails:
with an orphan note (its account absent from the store) the account-only
query returns nothing rather than the matching note, and with eleven
matching notes the default limit returns only ten of them. -/
theorem notes_scoping_cex :
    ¬ List.Perm
      (get_notes cexOrphanStore { user_id := some "u", account_id := some "A-1" }).notes
      ((cexOrphanStore.notes.filter (fun n => n.account_id == some "A-1" &&
        n.facility_id == none && n.user_id == "u")).map noteInfoOf) ∧
    ¬ List.Perm
      (get_notes cexManyStore { user_id := some "u", account_id := some "A-1" }).notes
      ((cexManyStore.notes.filter (fun n => n.account_id == some "A-1" &&
        n.facility_id == none && n.user_id == "u")).map noteInfoOf) := by
  constructor
  · decide
  · decide

/-- **C4 (amended).** Provided the supplied ids exist in the store and at
most `limit` notes match each scope, `get_notes` returns exactly (up to
order) the user's notes of the requested scope: account-only queries
return the notes with that account id and a null facility id, facility
queries the converse, and both-id queries the union of the three
combinations — so an account-only query never returns a facility-tagged
note and vice versa. -/
theorem notes_scoping_amended (s : Store) (a f u : String) (lim : Nat)
    (hu : pyStrip u ≠ "") (ha : pyStrip a ≠ "") (hf : pyStrip f ≠ "")
    (haex : accountsMatching s a ≠ [])
    (hfex : facilitiesMatching s f ≠ [])
    (hacount : (s.notes.filter (fun n => n.account_id == some a && n.facility_id == none &&
      n.user_id == pyStrip u)).length ≤ lim)
    (hfcount : (s.notes.filter (fun n => n.facility_id == some f && n.account_id == none &&
      n.user_id == pyStrip u)).length ≤ lim)
    (hbcount : (s.notes.filter (fun n => ((n.account_id == some a && n.facility_id == none) ||
      (n.facility_id == some f && n.account_id == none) ||
      (n.account_id == some a && n.facility_id == some f)) &&
      n.user_id == pyStrip u)).length ≤ lim) :
    List.Perm (get_notes s { user_id := some u, account_id := some a, limit := lim }).notes
      ((s.notes.filter (fun n => n.account_id == some a && n.facility_id == none &&
        n.user_id == pyStrip u)).map noteInfoOf) ∧
    List.Perm (get_notes s { user_id := some u, facility_id := some f, limit := lim }).notes
      ((s.notes.filter (fun n => n.facility_id == some f && n.account_id == none &&
        n.user_id == pyStrip u)).map noteInfoOf) ∧
    List.Perm (get_notes s
        { user_id := some u, account_id := some a, facility_id := some f,
          limit := lim }).notes
      ((s.notes.filter (fun n => ((n.account_id == some a && n.facility_id == none) ||
        (n.facility_id == some f && n.account_id == none) ||
        (n.account_id == some a && n.facility_id == some f)) &&
        n.user_id == pyStrip u)).map noteInfoOf) := by
  have hsu := struthy_some_of_ne (ne_empty_of_trim hu)
  have hseu : strippedEmpty (some u) = false := by
    rw [strippedEmpty_some]
    exact beq_eq_false_iff_ne.mpr hu
  have hsa2 := struthy_some_of_ne (ne_empty_of_trim ha)
  have hsea : strippedEmpty (some a) = false := by
    rw [strippedEmpty_some]
    exact beq_eq_false_iff_ne.mpr ha
  have hsf2 := struthy_some_of_ne (ne_empty_of_trim hf)
  have hsef : strippedEmpty (some f) = false := by
    rw [strippedEmpty_some]
    exact beq_eq_false_iff_ne.mpr hf
  have hida : idOrNull (some a) = some a := by
    simp [idOrNull, hsa2, hsea]
  have hidf : idOrNull (some f) = some f := by
    simp [idOrNull, hsf2, hsef]
  have huser : (!(struthy (some u)) || strippedEmpty (some u)) = false := by
    rw [hsu, hseu]
    rfl
  have haee : (accountsMatching s a).isEmpty = false := by
    cases he : accountsMatching s a
    · exact absurd he haex
    · rfl
  have hfee : (facilitiesMatching s f).isEmpty = false := by
    cases he : facilitiesMatching s f
    · exact absurd he hfex
    · rfl
  refine ⟨?_, ?_, ?_⟩
  · have hq1 : List.Perm (getNotesQuery s (idOrNull (some a)) (idOrNull none)
        (pyStrip u) lim) (s.notes.filter (accountOnlyNote a (pyStrip u))) := by
      rw [hida]
      show List.Perm
        ((sortNotesDesc (s.notes.filter (accountOnlyNote a (pyStrip u)))).take lim) _
      exact take_sort_perm _ lim hacount
    exact (get_notes_notes_perm s { user_id := some u, account_id := some a, limit := lim }
      huser (by simp [hsa2]) (by simp [hsa2, haee]) (by simp [struthy_none])).trans
      (hq1.map noteInfoOf)
  · have hq2 : List.Perm (getNotesQuery s (idOrNull none) (idOrNull (some f))
        (pyStrip u) lim) (s.notes.filter (facilityOnlyNote f (pyStrip u))) := by
      rw [hidf]
      show List.Perm
        ((sortNotesDesc (s.notes.filter (facilityOnlyNote f (pyStrip u)))).take lim) _
      exact take_sort_perm _ lim hfcount
    exact (get_notes_notes_perm s { user_id := some u, facility_id := some f, limit := lim }
      huser (by simp [hsf2]) (by simp [struthy_none]) (by simp [hsf2, hfee])).trans
      (hq2.map noteInfoOf)
  · have hq3 : List.Perm (getNotesQuery s (idOrNull (some a)) (idOrNull (some f))
        (pyStrip u) lim) (s.notes.filter (bothScopeNote a f (pyStrip u))) := by
      rw [hida, hidf]
      show List.Perm
        ((sortNotesDesc (s.notes.filter (bothScopeNote a f (pyStrip u)))).take lim) _
      exact take_sort_perm _ lim hbcount
    exact (get_notes_notes_perm s
      { user_id := some u, account_id := some a, facility_id := some f, limit := lim }
      huser (by simp [hsa2]) (by simp [hsa2, haee]) (by simp [hsf2, hfee])).trans
      (hq3.map noteInfoOf)

/-- A store with one account, one facility and one note of each scope
shape, for the C4 witness. -/
def wNotesStore : Store :=
  { accounts := [{ account_id := "A-1", account_name := some "Acme" }]
    facilities := [{ facility_id := "F-1", account_id := "A-1" }]
    notes := [
      { note_id := 1, account_id := some "A-1", facility_id := none,
        user_id := "u", note_content := "acct", created_at := 1 },
      { note_id := 2, account_id := none, facility_id := some "F-1",
        user_id := "u", note_content := "fac", created_at := 2 },
      { note_id := 3, account_id := some "A-1", facility_id := some "F-1",
        user_id := "u", note_content := "both", created_at := 3 }]
    next_note_id := 4
    now := 5 }

/-- Witness for the amended C4 at `wNotesStore`. -/
theorem notes_scoping_amended_witness :
    List.Perm (get_notes wNotesStore
        { user_id := some "u", account_id := some "A-1", limit := 10 }).notes
      ((wNotesStore.notes.filter (fun n => n.account_id == some "A-1" &&
        n.facility_id == none && n.user_id == pyStrip "u")).map noteInfoOf) ∧
    List.Perm (get_notes wNotesStore
        { user_id := some "u", facility_id := some "F-1", limit := 10 }).notes
      ((wNotesStore.notes.filter (fun n => n.facility_id == some "F-1" &&
        n.account_id == none && n.user_id == pyStrip "u")).map noteInfoOf) ∧
    List.Perm (get_notes wNotesStore
        { user_id := some "u", account_id := some "A-1", facility_id := some "F-1",
          limit := 10 }).notes
      ((wNotesStore.notes.filter (fun n =>
        ((n.account_id == some "A-1" && n.facility_id == none) ||
         (n.facility_id == some "F-1" && n.account_id == none) ||
         (n.account_id == some "A-1" && n.facility_id == some "F-1")) &&
        n.user_id == pyStrip "u")).map noteInfoOf) :=
  notes_scoping_amended wNotesStore "A-1" "F-1" "u" 10
    (by decide) (by decide) (by decide) (by decide) (by decide)
    (by decide) (by decide) (by decide)

end Agentic
